import Mathlib

/-!
Shallow embedding of `src/interactive_plotting.py` (repository
`le-ander/interactive_plotting`).

Each Python function that the verified claims touch is translated into an
executable Lean definition.  Python dictionaries become association lists
(`alookup` / `aerase` / `aset` mirror `d[k]`, `d.pop(k)`, in-place update of an
existing key); raising an exception becomes returning `Except.error`; the
in-place mutation that `smooth_expression`'s `_eval` performs on the caller's
`kernel_params` / `kernel_default_params` dictionaries is made explicit by
threading a `KState` value in and out of the evaluator.  Calls into external
libraries (numpy, sklearn, scanpy, scipy, `ast.parse`) are abstracted as
fields of an `Externals` record: they are arbitrary pure functions supplied by
the caller, which models the fact that those routines are deterministic
functions of their arguments and are outside this repository.
-/

deriving instance DecidableEq for Except

namespace IPlot

/-- Python exceptions raised by the embedded code. -/
inductive PyErr
  | valueError (msg : String)
  | keyError (key : String)
  | assertionError
  | typeError
  | nameError (n : String)
  | syntaxError
  | indexError
deriving DecidableEq

/-- A value stored in a Python keyword dictionary: either a string (e.g. the
`type` entry naming a kernel) or a number (e.g. `length_scale`). -/
inductive PVal
  | str (s : String)
  | num (q : ℚ)
deriving DecidableEq

/-- A Python `dict` with string keys, as an association list (keys unique). -/
abbrev Params := List (String × PVal)

/-- The `kernel_params` dictionary: variable name to its parameter dict. -/
abbrev KernelParams := List (String × Params)

variable {α : Type}

/-- Dictionary lookup `d.get(k)` (first matching key). -/
def alookup (l : List (String × α)) (k : String) : Option α :=
  match l with
  | [] => none
  | (k', v) :: rest => if k' = k then some v else alookup rest k

/-- Dictionary key removal (`d.pop(k)` / `del d[k]`): drops the first entry
with the given key. -/
def aerase (l : List (String × α)) (k : String) : List (String × α) :=
  match l with
  | [] => []
  | (k', v) :: rest => if k' = k then rest else (k', v) :: aerase rest k

/-- In-place update of an existing dictionary key (`d[k] = v`): replaces the
first entry with the given key. -/
def aset (l : List (String × α)) (k : String) (v : α) : List (String × α) :=
  match l with
  | [] => []
  | (k', v') :: rest => if k' = k then (k, v) :: rest else (k', v') :: aset rest k v

/-- An sklearn kernel object, as the tree of constructor calls and arithmetic
combinations that `smooth_expression._eval` builds. -/
inductive Kernel
  | num (q : ℚ)
  | base (ktype : String) (params : Params)
  | add (l r : Kernel)
  | mul (l r : Kernel)
  | pow (l r : Kernel)
deriving DecidableEq

/-- Keys of the `kernels` dictionary in `smooth_expression`. -/
def kernelNames : List String := ["const", "white", "rbf", "mat", "rq", "esn", "dp", "pw"]

/-- `kernels[kernel_type](**params)`: a `KeyError` when the popped `type` is
not a key of the `kernels` dictionary (including the case of a non-string). -/
def mkKernel (ty : PVal) (p : Params) : Except PyErr Kernel :=
  match ty with
  | .str s => if s ∈ kernelNames then .ok (.base s p) else .error (.keyError s)
  | .num _ => .error (.keyError "non-string kernel type")

/-- `params.pop('type', 'rbf')`: returns the popped value (default `'rbf'`)
together with the dictionary as it is left after the pop. -/
def popType (p : Params) : PVal × Params :=
  match alookup p "type" with
  | some v => (v, aerase p "type")
  | none => (.str "rbf", p)

/-- The mutable dictionaries that `smooth_expression._eval` reads and pops
from: the caller's `kernel_params` and `kernel_default_params`. -/
structure KState where
  kernel_params : KernelParams
  kernel_default_params : Params
deriving DecidableEq

/-- The Python `ast` nodes that `_eval` handles: numbers, names, and the
binary operators of its `operators` table (`+`, `*`, `**`). -/
inductive KExpr
  | num (q : ℚ)
  | name (id : String)
  | add (l r : KExpr)
  | mul (l r : KExpr)
  | pow (l r : KExpr)
deriving DecidableEq

/-- `smooth_expression._eval`.  `params = kernel_params.get(node.id,
kernel_default_params)` followed by `params.pop('type', 'rbf')` mutates the
caller's dictionary, so the evaluator threads the `KState` explicitly and
returns the dictionaries' final contents even when it raises. -/
def evalKernel (dflt : Bool) : KExpr → KState → Except PyErr Kernel × KState
  | .num q, st => (.ok (.num q), st)
  | .name id, st =>
    if ¬dflt ∧ (alookup st.kernel_params id).isNone then
      (.error (.valueError (id ++ " is not a valid key in kernel_params")), st)
    else
      match alookup st.kernel_params id with
      | some p =>
        let (ty, p') := popType p
        (mkKernel ty p', { st with kernel_params := aset st.kernel_params id p' })
      | none =>
        let (ty, p') := popType st.kernel_default_params
        (mkKernel ty p', { st with kernel_default_params := p' })
  | .add l r, st =>
    match evalKernel dflt l st with
    | (.ok kl, st₁) =>
      match evalKernel dflt r st₁ with
      | (.ok kr, st₂) => (.ok (.add kl kr), st₂)
      | (.error e, st₂) => (.error e, st₂)
    | (.error e, st₁) => (.error e, st₁)
  | .mul l r, st =>
    match evalKernel dflt l st with
    | (.ok kl, st₁) =>
      match evalKernel dflt r st₁ with
      | (.ok kr, st₂) => (.ok (.mul kl kr), st₂)
      | (.error e, st₂) => (.error e, st₂)
    | (.error e, st₁) => (.error e, st₁)
  | .pow l r, st =>
    match evalKernel dflt l st with
    | (.ok kl, st₁) =>
      match evalKernel dflt r st₁ with
      | (.ok kr, st₂) => (.ok (.pow kl kr), st₂)
      | (.error e, st₂) => (.error e, st₂)
    | (.error e, st₁) => (.error e, st₁)

/-- One entry of the third component of `smooth_expression`'s result: Python's
`None` (the `krr` branch returns `[None] * n_points`) or one row of the
covariance matrix returned by the Gaussian process. -/
inductive CovEntry
  | pyNone
  | row (r : List ℚ)
deriving DecidableEq

/-- The `(x_test, mean, cov)` triple returned by `smooth_expression`. -/
structure SmoothResult where
  x_test : List ℚ
  mean : List ℚ
  cov : List CovEntry
deriving DecidableEq

end IPlot

namespace IPlot

/-- The annotated data object (`AnnData`).  Tables are modelled as key lists
plus column accessors; `uns_iroot` is the one `uns` entry the code writes
(`ad_tmp.uns['iroot'] = i` in `multi_link`, on a copy). -/
structure AnnData where
  n_obs : Nat
  obs_keys : List String
  obs_col : String → List ℚ
  obs_cat : String → List String
  cat_categories : String → List String
  var_keys : List String
  var_names : List String
  var_col : String → List ℚ
  var_col_bool : String → List Bool
  X_col : String → List ℚ
  X_rows : List (List ℚ)
  raw_X : String → List ℚ
  layers_keys : List String
  layer : String → String → List ℚ
  obsm_keys : List String
  uns_keys : List String
  rank_genes_groups_keys : List String
  rank_groupby : String
  uns_iroot : Option Nat

/-- `adata.copy()`: an independent object with equal contents. -/
def annDataCopy (ad : AnnData) : AnnData := ad

/-- `ad_tmp.uns['iroot'] = i`. -/
def setIroot (ad : AnnData) (i : Nat) : AnnData := { ad with uns_iroot := some i }

/-- Boolean-mask row selection (`xs[mask]` in numpy/pandas). -/
def maskFilter (mask : List Bool) (xs : List α) : List α :=
  ((mask.zip xs).filter (fun p => p.1)).map (fun p => p.2)

/-- `adata[mask]`: observation subsetting by a boolean mask. -/
def AnnData.subsetObs (ad : AnnData) (mask : List Bool) : AnnData :=
  { ad with
    n_obs := mask.count true
    obs_col := fun k => maskFilter mask (ad.obs_col k)
    obs_cat := fun k => maskFilter mask (ad.obs_cat k)
    X_col := fun k => maskFilter mask (ad.X_col k)
    X_rows := maskFilter mask ad.X_rows
    raw_X := fun g => maskFilter mask (ad.raw_X g)
    layer := fun l g => maskFilter mask (ad.layer l g) }

/-- `ad_tmp[:, gene_subset]`: variable subsetting by a boolean mask. -/
def AnnData.subsetVars (ad : AnnData) (mask : List Bool) : AnnData :=
  { ad with
    var_names := maskFilter mask ad.var_names
    X_rows := ad.X_rows.map (maskFilter mask) }

/-- The external library routines the embedded functions call (numpy, sklearn,
scanpy, scipy, `ast.parse`).  They are deterministic functions supplied by the
caller of the embedding; none belongs to this repository. -/
structure Externals where
  parse : String → Except PyErr KExpr
  std : List ℚ → ℚ
  krrPredict : PVal → PVal → Params → List ℚ → List ℚ → List ℚ → List ℚ
  gpPredict : Kernel → PVal → Option PVal → Params → List ℚ → List ℚ → List ℚ → List ℚ × List (List ℚ)
  histogram : List ℚ → List ℚ × List ℚ
  sc_tl_dpt : AnnData → AnnData
  distance_matrix : List (List ℚ) → ℚ → List (List ℚ)

/-- `np.linspace(0, 1, n)[:, None]` (flattened). -/
def linspace01 (n : Nat) : List ℚ :=
  (List.range n).map (fun i => (i : ℚ) / ((n : ℚ) - 1))

/-- The `gamma` used by the `krr` branch: `opt_params.pop('gamma', None)`,
falling back to `1 / (2 * length_scale ** 2)` with `length_scale` from
`kernel_default_params` (default `0.2`).  A non-numeric `length_scale` makes
the Python arithmetic raise `TypeError`. -/
def krrGamma (kernel_default_params : Params) (opt_params : Params) : Except PyErr PVal :=
  match alookup opt_params "gamma" with
  | some g => .ok g
  | none =>
    match alookup kernel_default_params "length_scale" with
    | some (.num ls) => .ok (.num (1 / (2 * ls ^ 2)))
    | some (.str _) => .error .typeError
    | none => .ok (.num (1 / (2 * (1 / 5 : ℚ) ^ 2)))

/-- The `gp` branch's choice of kernel expression: the given `kernel_expr`, or
(after `assert len(kernel_params) == 1`) the sole key of `kernel_params`. -/
def resolveKernelExpr (kernel_expr : Option String) (kp : KernelParams) : Except PyErr String :=
  match kernel_expr with
  | some s => .ok s
  | none =>
    match kp with
    | [(k, _)] => .ok k
    | _ => .error .assertionError

/-- `smooth_expression`.  Returns the Python result (or the exception raised)
together with the final contents of the caller's `kernel_params` and
`kernel_default_params` dictionaries, which `_eval` pops `type` entries from. -/
def smooth_expression (ext : Externals) (x y : List ℚ) (n_points : Nat) (mode : String)
    (kernel_params : KernelParams) (kernel_default_params : Params)
    (kernel_expr : Option String) (dflt : Bool) (opt_params : Params) :
    Except PyErr SmoothResult × KState :=
  let st : KState := ⟨kernel_params, kernel_default_params⟩
  let x_test := linspace01 n_points
  if mode = "krr" then
    match krrGamma kernel_default_params opt_params with
    | .error e => (.error e, st)
    | .ok gamma =>
      let opt₁ := aerase opt_params "gamma"
      let kern := (alookup opt₁ "kernel").getD (.str "rbf")
      let opt₂ := aerase opt₁ "kernel"
      (.ok ⟨x_test, ext.krrPredict gamma kern opt₂ x y x_test,
            List.replicate n_points .pyNone⟩, st)
  else if mode = "gp" then
    match resolveKernelExpr kernel_expr kernel_params with
    | .error e => (.error e, st)
    | .ok kexpr =>
      match ext.parse kexpr with
      | .error e => (.error e, st)
      | .ok node =>
        match evalKernel dflt node st with
        | (.error e, st') => (.error e, st')
        | (.ok kernel, st') =>
          let alpha := (alookup opt_params "alpha").getD (.num (ext.std y))
          let opt₁ := aerase opt_params "alpha"
          let optimizer := alookup opt₁ "optimizer"
          let opt₂ := aerase opt₁ "optimizer"
          let opt₃ := aerase opt₂ "kernel"
          let (mean, cov) := ext.gpPredict kernel alpha optimizer opt₃ x y x_test
          (.ok ⟨x_test, mean, cov.map CovEntry.row⟩, st')
  else
    (.error (.valueError "Uknown type"), st)

/-- Sequential effectful map over a list (the shape of the Python `for` loops
and comprehensions that may raise): stops at the first exception. -/
def mapE (f : α → Except PyErr β) : List α → Except PyErr (List β)
  | [] => .ok []
  | a :: as =>
    match f a with
    | .error e => .error e
    | .ok b =>
      match mapE f as with
      | .error e => .error e
      | .ok bs => .ok (b :: bs)

/-- The key-validation loop of `interactive_histograms` (lines 153-157):
raises `ValueError` at the first requested key found in none of `adata.obs`,
`adata.var`, `adata.var_names`. -/
def checkKeys (ad : AnnData) : List String → Except PyErr Unit
  | [] => .ok ()
  | k :: ks =>
    if k ∈ ad.obs_keys ∨ k ∈ ad.var_keys ∨ k ∈ ad.var_names then checkKeys ad ks
    else .error (.valueError ("The key " ++ k ++ " does not exist in adata.obs, adata.var or adata.var_names."))

/-- The body of `interactive_histograms` after the bin-bound checks: validate
the keys, then compute one histogram per key from the column the key names
(chart assembly and display are bokeh calls on these arrays). -/
def interactive_histograms_body (ext : Externals) (ad : AnnData) (keys : List String) :
    Except PyErr (List (List ℚ × List ℚ)) :=
  match checkKeys ad keys with
  | .error e => .error e
  | .ok _ => .ok (keys.map (fun key =>
      if key ∈ ad.obs_keys then ext.histogram (ad.obs_col key)
      else if key ∈ ad.var_keys then ext.histogram (ad.var_col key)
      else ext.histogram (ad.X_col key)))

/-- `interactive_histograms`: the `min_bins`/`max_bins` `ValueError` checks
(lines 145-148) run first, then the key checks, then the histograms. -/
def interactive_histograms (ext : Externals) (ad : AnnData) (keys : List String)
    (min_bins max_bins : Int) : Except PyErr (List (List ℚ × List ℚ)) :=
  if min_bins < 1 then
    .error (.valueError "Expected min_bins >= 1")
  else if max_bins < min_bins then
    .error (.valueError "Expected min_bins <= max_bins")
  else interactive_histograms_body ext ad keys

/-- The `components` argument of `hist_thresh` / `multi_link` / `highlight_de`:
either a flat list of two component indices or a list of such pairs. -/
inductive ComponentsArg
  | flat (l : List Int)
  | nested (l : List (List Int))
deriving DecidableEq

/-- `if not isinstance(components[0], list): components = [components]`.
Indexing `components[0]` on an empty list raises `IndexError`. -/
def wrapComponents : ComponentsArg → Except PyErr (List (List Int))
  | .flat [] => .error .indexError
  | .flat l => .ok [l]
  | .nested [] => .error .indexError
  | .nested l => .ok l

/-- Python's `l * k` for lists: `k` concatenated copies. -/
def listRepeat (l : List α) (k : Nat) : List α := (List.replicate k l).flatten

/-- Lines 283-285 of `hist_thresh` (and the identical lines 1000-1002 of
`multi_link`): when the component list and the bases list have different
lengths, `assert len(bases) % len(components) == 0 and len(bases) >=
len(components)` and replicate the component list to the bases' length. -/
def normalize_components (bases : List String) (comps : List (List Int)) :
    Except PyErr (List (List Int)) :=
  if comps.length ≠ bases.length then
    if bases.length % comps.length = 0 ∧ comps.length ≤ bases.length then
      .ok (listRepeat comps (bases.length / comps.length))
    else .error .assertionError
  else .ok comps

/-- `hist_thresh`, through its data-computation stage: component
normalization, then the histogram of `adata.obs[key]` (a missing `key` makes
the pandas column lookup raise `KeyError`); the remaining statements assemble
bokeh figures and client-side callbacks from these arrays. -/
def hist_thresh (ext : Externals) (ad : AnnData) (key : String) (bases : List String)
    (components : ComponentsArg) : Except PyErr (List (List Int) × (List ℚ × List ℚ)) :=
  match wrapComponents components with
  | .error e => .error e
  | .ok comps0 =>
    match normalize_components bases comps0 with
    | .error e => .error e
    | .ok comps =>
      if key ∈ ad.obs_keys then .ok (comps, ext.histogram (ad.obs_col key))
      else .error (.keyError key)

end IPlot

namespace IPlot

/-- The `distance` argument of `multi_link`: a p-norm or `'dpt'`. -/
inductive Distance
  | pnorm (p : ℚ)
  | dpt
deriving DecidableEq

/-- The loop of `multi_link`'s `'dpt'` branch: for each root index, set
`uns['iroot']` on the working object, run `sc.tl.dpt` (which writes the
`dpt_pseudotime` column into that same object), and collect the column.  The
working object is threaded through the iterations, exactly as the Python loop
keeps mutating the one `ad_tmp`. -/
def multiLinkDptRows (ext : Externals) (ad : AnnData) : List Nat → List (List ℚ)
  | [] => []
  | i :: rest =>
    let ad₁ := ext.sc_tl_dpt (setIroot ad i)
    ad₁.obs_col "dpt_pseudotime" :: multiLinkDptRows ext ad₁ rest

/-- The distance-matrix computation of `multi_link` (lines 1010-1026): for a
p-norm distance, `scipy.spatial.distance_matrix` on the marker-restricted
value matrix; for `'dpt'`, the per-root pseudotime columns computed on a copy
of the caller's object. -/
def multiLinkDmat (ext : Externals) (adata : AnnData) (markers : Option (List String))
    (distance : Distance) : Except PyErr (List (List ℚ)) :=
  let markers' := markers.getD adata.var_names
  let gene_subset := adata.var_names.map (fun v => decide (v ∈ markers'))
  match distance with
  | .pnorm p => .ok (ext.distance_matrix (adata.X_rows.map (maskFilter gene_subset)) p)
  | .dpt =>
    let ad0 := (annDataCopy adata).subsetVars gene_subset
    .ok (multiLinkDptRows ext ad0 (List.range ad0.n_obs))

/-- `multi_link`, through its distance-matrix stage.  The first component of
the result is the caller's `adata` as the function leaves it: the source reads
from `adata` and, in the `'dpt'` branch, works on `ad_tmp = adata.copy()`
(lines 1021-1026), never assigning into the caller's object.  The remaining
statements assemble bokeh figures from the distance matrix. -/
def multi_link (ext : Externals) (adata : AnnData) (bases : List String)
    (components : ComponentsArg) (markers : Option (List String)) (distance : Distance)
    (highlight_only : Option String) : AnnData × Except PyErr (List (List ℚ)) :=
  (adata,
    match wrapComponents components with
    | .error e => .error e
    | .ok comps0 =>
      match normalize_components bases comps0 with
      | .error e => .error e
      | .ok _comps =>
        match highlight_only with
        | some hk =>
          if hk ∈ adata.obs_keys then
            multiLinkDmat ext adata markers distance
          else .error .assertionError
        | none => multiLinkDmat ext adata markers distance)

/-- The inner loop of `plot_velocity`'s path assertion (lines 654-656): each
group name of a path must be a category of `adata.obs[path_key]` (a missing
`path_key` column makes the pandas lookup itself raise `KeyError`). -/
def pathCheck (ad : AnnData) (path_key : String) : List String → Except PyErr Unit
  | [] => .ok ()
  | p :: ps =>
    if path_key ∈ ad.obs_keys then
      if p ∈ ad.cat_categories path_key then pathCheck ad path_key ps
      else .error .assertionError
    else .error (.keyError path_key)

/-- The outer loop of `plot_velocity`'s path assertion. -/
def pathsCheck (ad : AnnData) (path_key : String) : List (List String) → Except PyErr Unit
  | [] => .ok ()
  | path :: rest =>
    match pathCheck ad path_key path with
    | .error e => .error e
    | .ok _ => pathsCheck ad path_key rest

/-- The gene list `plot_velocity` actually plots (lines 669-677): the first
`n_velocity_genes` of `adata.var['velocity_genes']` when `genes is None`;
otherwise the requested genes restricted to those present in
`adata.var_names` — missing genes are printed and dropped, not raised on. -/
def plot_velocity_genes (ad : AnnData) (genes : Option (List String))
    (n_velocity_genes : Nat) : List String :=
  match genes with
  | none => (maskFilter (ad.var_col_bool "velocity_genes") ad.var_names).take n_velocity_genes
  | some gs => gs.filter (fun g => decide (g ∈ ad.var_names))

/-- The arrays `plot_velocity` accumulates in its per-gene `data` dictionary
(one list entry per path). -/
structure VeloData where
  expr : List (List ℚ)
  dpt : List (List ℚ)
  colors : List (List String)
  x_test : List (List ℚ)
  x_mean : List (List ℚ)
  x_cov : List (List CovEntry)
deriving DecidableEq

/-- The per-path body of `plot_velocity`'s gene loop (lines 685-722): subset
the data to the path, read the gene's expression and the pseudotime, append
them, and if `smooth` append the `smooth_expression` results (called with a
fresh `kernel_params = dict(k=dict(length_scale=length_scale))` and
`n_points = len(dpt)`). -/
def plot_velocity_path_step (ext : Externals) (adata : AnnData) (gene : String)
    (exp_key path_key color_key mode : String) (smooth : Bool) (length_scale : ℚ)
    (opt_params : Params) (data : VeloData) (path : List String) :
    Except PyErr VeloData :=
  let mask := (adata.obs_cat path_key).map (fun v => decide (v ∈ path))
  let ad := (adata.subsetObs mask)
  let gene_exp := if exp_key ≠ "X" then ad.layer exp_key gene else ad.raw_X gene
  let ix := gene_exp.map (fun q => decide (0 < q))
  let dpt := ad.obs_col "dpt_pseudotime"
  let data := { data with
    expr := data.expr ++ [gene_exp]
    dpt := data.dpt ++ [dpt]
    colors := data.colors ++ [ad.obs_cat color_key] }
  if smooth then
    if (maskFilter ix gene_exp).all (fun q => decide (0 < q)) then
      match (smooth_expression ext (maskFilter ix dpt) (maskFilter ix gene_exp) dpt.length
          mode [("k", [("length_scale", .num length_scale)])] [] none false opt_params).1 with
      | .error e => .error e
      | .ok r => .ok { data with
          x_test := data.x_test ++ [r.x_test]
          x_mean := data.x_mean ++ [r.mean]
          x_cov := data.x_cov ++ [r.cov] }
    else .error .assertionError
  else .ok data

/-- Sequential effectful left fold (the accumulating Python `for` loop). -/
def foldE (f : β → α → Except PyErr β) : β → List α → Except PyErr β
  | b, [] => .ok b
  | b, a :: as =>
    match f b a with
    | .error e => .error e
    | .ok b' => foldE f b' as

/-- One iteration of `plot_velocity`'s gene loop: `data = defaultdict(list)`
is rebound fresh for the gene, then filled path by path. -/
def plot_velocity_gene_data (ext : Externals) (adata : AnnData) (paths : List (List String))
    (gene : String) (exp_key path_key color_key mode : String) (smooth : Bool)
    (length_scale : ℚ) (opt_params : Params) : Except PyErr VeloData :=
  foldE (plot_velocity_path_step ext adata gene exp_key path_key color_key mode smooth
    length_scale opt_params) ⟨[], [], [], [], [], []⟩ paths

/-- `plot_velocity` up to its display stage: path assertions, the
`dpt_pseudotime` check (line 659-660; the `velo_key_ss` / `velo_key_dyn`
layer checks of lines 661-666 are disabled in the source — their `raise`
statements are commented out and replaced by `pass`), gene selection, the
`_create_mapper(adata, color_key)` column access, then one `VeloData` per
gene. -/
def plot_velocity_core (ext : Externals) (adata : AnnData) (paths : List (List String))
    (genes : Option (List String)) (n_velocity_genes : Nat) (exp_key mode : String)
    (smooth : Bool) (length_scale : ℚ) (color_key path_key : String)
    (velo_key_ss velo_key_dyn : String) (opt_params : Params) :
    Except PyErr (List VeloData) :=
  match pathsCheck adata path_key paths with
  | .error e => .error e
  | .ok _ =>
    if "dpt_pseudotime" ∉ adata.obs_keys then .error (.valueError "Compute dpt first.")
    else
      -- if velo_key_ss not in adata.layers.keys(): pass  (raise disabled)
      -- if velo_key_dyn not in adata.layers.keys(): pass  (raise disabled)
      let _ := (velo_key_ss ∈ adata.layers_keys, velo_key_dyn ∈ adata.layers_keys)
      let genes' := plot_velocity_genes adata genes n_velocity_genes
      if color_key ∉ adata.obs_keys then .error (.keyError color_key)
      else
        mapE (fun g => plot_velocity_gene_data ext adata paths g exp_key path_key color_key
          mode smooth length_scale opt_params) genes'

/-- `plot_velocity`.  The first component is the caller's `adata` after the
call (the source never assigns into it; each path iteration works on
`adata[path_ix].copy()`).  The second is the Python return value: the `data`
dictionary left by the loop when `return_values` is true (`NameError` when the
loop never ran, since `data` is then unbound), `None` otherwise. -/
def plot_velocity (ext : Externals) (adata : AnnData) (paths : List (List String))
    (genes : Option (List String)) (n_velocity_genes : Nat) (exp_key mode : String)
    (smooth : Bool) (length_scale : ℚ) (color_key path_key : String)
    (return_values : Bool) (velo_key_ss velo_key_dyn : String) (opt_params : Params) :
    AnnData × Except PyErr (Option VeloData) :=
  (adata,
    match plot_velocity_core ext adata paths genes n_velocity_genes exp_key mode smooth
        length_scale color_key path_key velo_key_ss velo_key_dyn opt_params with
    | .error e => .error e
    | .ok datas =>
      if return_values then
        match datas.getLast? with
        | some d => .ok (some d)
        | none => .error (.nameError "data")
      else .ok none)

end IPlot

namespace IPlot

/-- A `str`-or-`list` argument (`de_keys`, `cell_keys` of `highlight_de`). -/
inductive StrOrList
  | str (s : String)
  | list (l : List String)
deriving DecidableEq

/-- Python's `s.split(',')` (split on every comma, no merging). -/
def splitCommasAux : List Char → List Char → List String
  | [], acc => [String.mk acc.reverse]
  | c :: cs, acc =>
    if c = ',' then String.mk acc.reverse :: splitCommasAux cs []
    else splitCommasAux cs (c :: acc)

/-- Python's `s.split(',')`. -/
def pySplitComma (s : String) : List String := splitCommasAux s.data []

/-- Python's `str.strip` (whitespace modelled as the space character). -/
def pyStrip (s : String) : String :=
  String.mk (((s.data.dropWhile (fun c => c = ' ')).reverse.dropWhile (fun c => c = ' ')).reverse)

/-- `list(dict.fromkeys(...))`: deduplication keeping first occurrences. -/
def pyDedup : List String → List String :=
  go []
where
  go (seen : List String) : List String → List String
    | [] => []
    | x :: xs => if x ∈ seen then go seen xs else x :: go (x :: seen) xs

/-- The `de_keys` / `cell_keys` normalization of `highlight_de` (lines
855-867): a string is split on commas, stripped and deduplicated, then every
resulting key is asserted to lie in `valid`; the sentinel `['']` becomes the
empty list.  A list argument is taken as is (no check at this stage). -/
def parseKeysArg (arg : StrOrList) (valid : List String) : Except PyErr (List String) :=
  match arg with
  | .str s =>
    let ks := pyDedup ((pySplitComma s).map pyStrip)
    if ks ≠ [""] then
      if ks.all (fun k => decide (k ∈ valid)) then .ok ks else .error .assertionError
    else .ok []
  | .list l => .ok l

/-- `highlight_de`, through its data-frame stage: the `rank_genes_groups`
check (lines 851-852), key-argument normalization, the `X_basis` check, the
insertion of the group-by key at the front of `cell_keys`, and the data-frame
columns `df[k] = list(map(str, adata.obs[k]))` (a missing column raises
`KeyError` here, before the KNN fit).  The KNN classification, convex hulls
and chart assembly that follow are sklearn/scipy/bokeh calls on these
columns. -/
def highlight_de (ad : AnnData) (basis : String) (de_keys cell_keys : StrOrList) :
    Except PyErr (List String × List (List String)) :=
  if "rank_genes_groups" ∉ ad.uns_keys then
    .error (.valueError "Run differential expression first.")
  else
    match parseKeysArg de_keys ad.rank_genes_groups_keys with
    | .error e => .error e
    | .ok de =>
      match parseKeysArg cell_keys ad.obs_keys with
      | .error e => .error e
      | .ok ck =>
        if ("X_" ++ basis) ∉ ad.obsm_keys then
          .error (.valueError ("Key X_" ++ basis ++ " not found in adata.obsm."))
        else
          let key := ad.rank_groupby
          let ck := if key ∈ ck then ck else key :: ck
          match mapE (fun k =>
              if k ∈ ad.obs_keys then .ok (ad.obs_cat k) else .error (.keyError k)) ck with
          | .error e => .error e
          | .ok cols => .ok (de, cols)

/-- `plot_cell_indices`, through its data-frame stage: the `key` check (lines
1131-1132), the `X_basis` check (lines 1134-1135), the `cell_keys`
normalization with its assert (lines 1140-1145, the same pattern as
`highlight_de`'s), and the data-frame columns
`df[k] = list(map(str, adata.obs[k]))` (lines 1149-1150; a missing column
raises `KeyError` here).  The labels, hover tool and chart assembly that
follow are bokeh calls on these columns. -/
def plot_cell_indices (ad : AnnData) (key basis : String) (cell_keys : StrOrList) :
    Except PyErr (List (List String)) :=
  if key ∉ ad.obs_keys then
    .error (.valueError (key ++ " not found in adata.obs"))
  else if ("X_" ++ basis) ∉ ad.obsm_keys then
    .error (.valueError ("basis X_" ++ basis ++ " not found in adata.obsm"))
  else
    match parseKeysArg cell_keys ad.obs_keys with
    | .error e => .error e
    | .ok ck =>
      match mapE (fun k =>
          if k ∈ ad.obs_keys then .ok (ad.obs_cat k) else .error (.keyError k)) ck with
      | .error e => .error e
      | .ok cols => .ok cols

/-- The names bound in the module scope of `interactive_plotting.py`: the
`import`ed names (including the `sklearn.gaussian_process.kernels` star
import) and the module's own definitions.  `X_test` is not among them. -/
def moduleScope : List String :=
  ["ConstantKernel", "WhiteKernel", "RBF", "Matern", "RationalQuadratic",
   "ExpSineSquared", "DotProduct", "PairwiseKernel", "Sum", "Product",
   "Exponentiation", "CompoundKernel", "Hyperparameter", "GenericKernelMixin",
   "neighbors", "issparse", "distance_matrix", "ConvexHull", "reduce",
   "defaultdict", "product", "warnings", "np", "pd", "sc", "cm", "matplotlib",
   "figure", "show", "ColumnDataSource", "Slider", "HoverTool", "ColorBar",
   "Patches", "Legend", "CustomJS", "TextInput", "LabelSet",
   "CategoricalColorMapper", "layout", "column", "row", "GridSpec",
   "linear_cmap", "factor_mark", "factor_cmap", "MarkerType", "Set1", "Set2",
   "Set3", "viridis", "Button", "_inter_hist_js_code", "_cmap_to_colors",
   "_create_mapper", "interactive_histograms", "hist_thresh",
   "smooth_expression", "compute_dist", "shift_scale", "pred_exp",
   "plot_velocity", "_create_velocity_figure", "highlight_de", "multi_link",
   "plot_cell_indices"]

/-- The local names of `pred_exp` at its first statement: the two parameters
and the function-local import `from scipy.integrate import simps`. -/
def predExpLocals : List String := ["x_test", "y_test", "simps"]

/-- Python name resolution: a `NameError` when the name is bound neither
locally nor in the module scope. -/
def lookupName (locals globals : List String) (n : String) : Except PyErr Unit :=
  if n ∈ locals ∨ n ∈ globals then .ok () else .error (.nameError n)

/-- `pred_exp` (lines 564-592).  Its first executable statement after the
import, `n_points = X_test.shape[0]`, reads the name `X_test`, which is bound
neither locally (the parameter is `x_test`) nor at module level; everything
after that first lookup — the `integrate` helper and the `y_pred`
comprehension, which also reads `X_test` — is unreachable. -/
def pred_exp (x_test y_test : List ℚ) : Except PyErr (List ℚ) :=
  let _ := (x_test, y_test)
  match lookupName predExpLocals moduleScope "X_test" with
  | .error e => .error e
  | .ok _ => .ok []

/-- A numeric fingerprint of a kernel object, used to build a concrete
instantiation of the external Gaussian-process regressor that distinguishes
kernels (as the real regressor does: different kernels give different
predictions). -/
def kernelTag : Kernel → ℚ
  | .num q => q
  | .base t _ => if t = "mat" then 1 else 0
  | .add _ _ => 2
  | .mul _ _ => 3
  | .pow _ _ => 4

/-- A concrete instantiation of the external libraries: `parse` handles the
single-identifier expressions the claims exercise, the Gaussian-process mean
reports the kernel's fingerprint, and the remaining routines are simple total
functions. -/
def probeExt : Externals where
  parse := fun s => .ok (.name s)
  std := fun _ => 1
  krrPredict := fun _ _ _ _ _ x_test => x_test
  gpPredict := fun k _ _ _ _ _ _ => ([kernelTag k], [])
  histogram := fun l => (l, l)
  sc_tl_dpt := id
  distance_matrix := fun m _ => m

/-- A small concrete annotated-data object: two observations on one Louvain
cluster `"0"` with a computed pseudotime, two genes `g1`/`g2`, differential
expression computed, and no velocity layers. -/
def adCex : AnnData where
  n_obs := 2
  obs_keys := ["dpt_pseudotime", "louvain"]
  obs_col := fun k => if k = "dpt_pseudotime" then [0, 1] else []
  obs_cat := fun k => if k = "louvain" then ["0", "0"] else []
  cat_categories := fun k => if k = "louvain" then ["0"] else []
  var_keys := []
  var_names := ["g1", "g2"]
  var_col := fun _ => []
  var_col_bool := fun _ => []
  X_col := fun _ => []
  X_rows := [[1, 3], [2, 4]]
  raw_X := fun g => if g = "g1" then [1, 2] else if g = "g2" then [3, 4] else []
  layers_keys := []
  layer := fun _ _ => []
  obsm_keys := ["X_umap"]
  uns_keys := ["rank_genes_groups"]
  rank_genes_groups_keys := ["names"]
  rank_groupby := "louvain"
  uns_iroot := none

/-- A concrete annotated-data object on which no prerequisite computation has
been run: no pseudotime column, no differential expression. -/
def adEmpty : AnnData where
  n_obs := 0
  obs_keys := []
  obs_col := fun _ => []
  obs_cat := fun _ => []
  cat_categories := fun _ => []
  var_keys := []
  var_names := []
  var_col := fun _ => []
  var_col_bool := fun _ => []
  X_col := fun _ => []
  X_rows := []
  raw_X := fun _ => []
  layers_keys := []
  layer := fun _ _ => []
  obsm_keys := []
  uns_keys := []
  rank_genes_groups_keys := []
  rank_groupby := ""
  uns_iroot := none

/-- No `type` entry in a parameter dictionary: `d.pop('type', 'rbf')` then
leaves `d` unchanged and yields the default. -/
def paramsNoType (p : Params) : Bool := (alookup p "type").isNone

/-- No `type` entry in any of the dictionaries `_eval` can pop from. -/
def kstateNoType (st : KState) : Bool :=
  st.kernel_params.all (fun kv => paramsNoType kv.2) && paramsNoType st.kernel_default_params

end IPlot

namespace IPlot

section Lemmas

variable {α β : Type}

theorem alookup_mem {l : List (String × α)} {k : String} {v : α}
    (h : alookup l k = some v) : (k, v) ∈ l := by
  induction l with
  | nil => simp [alookup] at h
  | cons hd tl ih =>
    obtain ⟨k', v'⟩ := hd
    simp only [alookup] at h
    split at h
    · next heq =>
      subst heq
      cases h
      exact List.mem_cons_self _ _
    · exact List.mem_cons_of_mem _ (ih h)

theorem aset_eq_of_alookup {l : List (String × α)} {k : String} {v : α}
    (h : alookup l k = some v) : aset l k v = l := by
  induction l with
  | nil => rfl
  | cons hd tl ih =>
    obtain ⟨k', v'⟩ := hd
    simp only [alookup] at h
    simp only [aset]
    split at h
    · next heq =>
      subst heq
      cases h
      simp
    · next hne =>
      simp only [if_neg hne]
      rw [ih h]

theorem popType_of_noType {p : Params} (h : paramsNoType p = true) :
    popType p = (.str "rbf", p) := by
  unfold popType
  unfold paramsNoType at h
  rw [Option.isNone_iff_eq_none] at h
  rw [h]

theorem evalKernel_snd_of_noType (dflt : Bool) (e : KExpr) (st : KState)
    (h : kstateNoType st = true) : (evalKernel dflt e st).2 = st := by
  have hkp : ∀ kv ∈ st.kernel_params, paramsNoType kv.2 = true := by
    have := (Bool.and_eq_true _ _).mp h
    exact fun kv hkv => List.all_eq_true.mp this.1 kv hkv
  have hkdp : paramsNoType st.kernel_default_params = true :=
    ((Bool.and_eq_true _ _).mp h).2
  induction e with
  | num q => rfl
  | name id =>
    unfold evalKernel
    split
    · rfl
    · cases hlk : alookup st.kernel_params id with
      | some p =>
        have hp : paramsNoType p = true := hkp (id, p) (alookup_mem hlk)
        simp only [popType_of_noType hp, aset_eq_of_alookup hlk]
      | none =>
        simp only [popType_of_noType hkdp]
  | add l r ihl ihr =>
    unfold evalKernel
    split
    · rename_i kl st₁ heq
      have h1 : st₁ = st := by rw [heq] at ihl; exact ihl
      rw [h1]
      split
      · rename_i kr st₂ heq₂
        rw [heq₂] at ihr; exact ihr
      · rename_i e st₂ heq₂
        rw [heq₂] at ihr; exact ihr
    · rename_i e st₁ heq
      rw [heq] at ihl; exact ihl
  | mul l r ihl ihr =>
    unfold evalKernel
    split
    · rename_i kl st₁ heq
      have h1 : st₁ = st := by rw [heq] at ihl; exact ihl
      rw [h1]
      split
      · rename_i kr st₂ heq₂
        rw [heq₂] at ihr; exact ihr
      · rename_i e st₂ heq₂
        rw [heq₂] at ihr; exact ihr
    · rename_i e st₁ heq
      rw [heq] at ihl; exact ihl
  | pow l r ihl ihr =>
    unfold evalKernel
    split
    · rename_i kl st₁ heq
      have h1 : st₁ = st := by rw [heq] at ihl; exact ihl
      rw [h1]
      split
      · rename_i kr st₂ heq₂
        rw [heq₂] at ihr; exact ihr
      · rename_i e st₂ heq₂
        rw [heq₂] at ihr; exact ihr
    · rename_i e st₁ heq
      rw [heq] at ihl; exact ihl

theorem checkKeys_missing (ad : AnnData) (keys : List String)
    (h : ∃ k ∈ keys, k ∉ ad.obs_keys ∧ k ∉ ad.var_keys ∧ k ∉ ad.var_names) :
    ∃ m, checkKeys ad keys = .error (.valueError m) := by
  induction keys with
  | nil => simp at h
  | cons k ks ih =>
    unfold checkKeys
    split
    · next hin =>
      apply ih
      rcases h with ⟨k', hk', hmiss⟩
      rcases List.mem_cons.mp hk' with rfl | hmem
      · exact absurd hin (by tauto)
      · exact ⟨k', hmem, hmiss⟩
    · exact ⟨_, rfl⟩

theorem mapE_length {f : α → Except PyErr β} {l : List α} {bs : List β}
    (h : mapE f l = .ok bs) : bs.length = l.length := by
  induction l generalizing bs with
  | nil => cases h; rfl
  | cons a as ih =>
    unfold mapE at h
    split at h
    · cases h
    · split at h
      · cases h
      · next bs' hbs' =>
        cases h
        simp [ih hbs']

theorem mapE_getLast {f : α → Except PyErr β} {l : List α} {bs : List β}
    (h : mapE f l = .ok bs) {b : β} (hb : bs.getLast? = some b) :
    ∃ a, l.getLast? = some a ∧ f a = .ok b := by
  induction l generalizing bs with
  | nil =>
    cases h
    simp at hb
  | cons a as ih =>
    unfold mapE at h
    split at h
    · cases h
    · next b₀ hb₀ =>
      split at h
      · cases h
      · next bs' hbs' =>
        cases h
        cases hlast : bs'.getLast? with
        | some b' =>
          have hne : bs' ≠ [] := by
            intro hnil
            rw [hnil] at hlast
            cases hlast
          rw [List.getLast?_cons, hlast] at hb
          simp at hb
          subst hb
          obtain ⟨a', ha', hfa'⟩ := ih hbs' hlast
          have hasne : as ≠ [] := by
            intro hnil
            subst hnil
            cases ha'
          refine ⟨a', ?_, hfa'⟩
          rw [List.getLast?_cons, ha']
          have : as.getLast?.isSome := by rw [ha']; rfl
          simp [ha']
        | none =>
          have hbs'nil : bs' = [] := by
            cases bs' with
            | nil => rfl
            | cons x xs =>
              rw [List.getLast?_cons] at hlast
              rcases hx : (xs.getLast?) with _ | y
              · rw [hx] at hlast; simp at hlast
              · rw [hx] at hlast; simp at hlast
          subst hbs'nil
          have hasnil : as = [] := by
            have := mapE_length hbs'
            simpa using this.symm
          subst hasnil
          simp at hb
          subst hb
          exact ⟨a, rfl, hb₀⟩

theorem listRepeat_length (l : List α) (k : Nat) :
    (listRepeat l k).length = k * l.length := by
  induction k with
  | zero => simp [listRepeat]
  | succ n ih =>
    unfold listRepeat at *
    rw [List.replicate_succ, List.flatten_cons, List.length_append, ih]
    ring

theorem listRepeat_getElem? {l : List α} (hl : l ≠ []) (k i : Nat)
    (hi : i < k * l.length) : (listRepeat l k)[i]? = l[i % l.length]? := by
  have hlen : 0 < l.length := List.length_pos.mpr hl
  induction k generalizing i with
  | zero => omega
  | succ n ih =>
    unfold listRepeat at *
    rw [List.replicate_succ, List.flatten_cons]
    by_cases hcase : i < l.length
    · rw [List.getElem?_append_left hcase, Nat.mod_eq_of_lt hcase]
    · push_neg at hcase
      rw [List.getElem?_append_right hcase]
      rw [Nat.succ_mul] at hi
      have hsub : i - l.length < n * l.length := by omega
      rw [ih _ hsub, Nat.mod_eq_sub_mod hcase]

theorem obsColsE_missing (ad : AnnData) (ck : List String)
    (h : ∃ k ∈ ck, k ∉ ad.obs_keys) :
    ∃ k', mapE (fun k =>
        if k ∈ ad.obs_keys then .ok (ad.obs_cat k) else .error (.keyError k)) ck =
      .error (.keyError k') := by
  induction ck with
  | nil => simp at h
  | cons k ks ih =>
    by_cases hk : k ∈ ad.obs_keys
    · have hmem : ∃ k' ∈ ks, k' ∉ ad.obs_keys := by
        rcases h with ⟨k', hk', hmiss⟩
        rcases List.mem_cons.mp hk' with rfl | hm
        · exact absurd hk hmiss
        · exact ⟨k', hm, hmiss⟩
      obtain ⟨k', hk'⟩ := ih hmem
      refine ⟨k', ?_⟩
      unfold mapE
      rw [if_pos hk, hk']
    · refine ⟨k, ?_⟩
      unfold mapE
      rw [if_neg hk]

theorem plot_velocity_genes_filter (ad : AnnData) (gs : List String) (nvg : Nat) :
    plot_velocity_genes ad (some (gs.filter (fun g => decide (g ∈ ad.var_names)))) nvg =
    plot_velocity_genes ad (some gs) nvg := by
  simp [plot_velocity_genes, List.filter_filter]

end Lemmas

end IPlot

namespace IPlot

/-- Claim C1, counterexample: `plot_velocity` is a public plotting function
and `"missing"` is a requested gene absent from `adata.var_names`, yet the
call raises no error — it completes and returns `None` (the missing gene is
printed and dropped, lines 672-677), contradicting the claim that every such
call raises before computing. -/
theorem C1_missing_keys_counterexample :
    "missing" ∉ adCex.var_names ∧
    (plot_velocity probeExt adCex [["0"]] (some ["g1", "missing"]) 5 "X" "gp" false 0
      "louvain" "louvain" false "velocity" "velocity_dynamical" []).2 = .ok none := by
  decide

/-- Claim C1, amended: `interactive_histograms` raises `ValueError` for a
requested key absent from the observation table, variable table and variable
names, before computing any histogram; `highlight_de` and `plot_cell_indices`
raise for a requested cell key absent from the observation table before the
KNN fit and before the chart assembly respectively — `AssertionError` when
`cell_keys` is a comma-separated string, `KeyError` at the data-frame build
when `cell_keys` is a list; but `plot_velocity` does not raise on requested
genes absent from the variable names — it drops them and behaves exactly as
if called with the existing genes only. -/
theorem C1_missing_keys : ∀ (ext : Externals) (ad : AnnData) (keys : List String)
    (mb Mb : Int) (basis : String) (dk : StrOrList) (de : List String) (s : String)
    (ikey : String) (cks : List String)
    (paths : List (List String)) (gs : List String) (nvg : Nat) (ek mode : String)
    (sm : Bool) (ls : ℚ) (ck pk : String) (rv : Bool) (vss vdyn : String) (opt : Params),
    (1 ≤ mb → mb ≤ Mb →
      (∃ k ∈ keys, k ∉ ad.obs_keys ∧ k ∉ ad.var_keys ∧ k ∉ ad.var_names) →
      ∃ m, interactive_histograms ext ad keys mb Mb = .error (.valueError m)) ∧
    ("rank_genes_groups" ∈ ad.uns_keys →
      parseKeysArg dk ad.rank_genes_groups_keys = .ok de →
      pyDedup ((pySplitComma s).map pyStrip) ≠ [""] →
      (pyDedup ((pySplitComma s).map pyStrip)).all (fun k => decide (k ∈ ad.obs_keys)) = false →
      highlight_de ad basis dk (.str s) = .error .assertionError) ∧
    ("rank_genes_groups" ∈ ad.uns_keys →
      parseKeysArg dk ad.rank_genes_groups_keys = .ok de →
      ("X_" ++ basis) ∈ ad.obsm_keys →
      (∃ k ∈ cks, k ∉ ad.obs_keys) →
      ∃ k', highlight_de ad basis dk (.list cks) = .error (.keyError k')) ∧
    (ikey ∈ ad.obs_keys → ("X_" ++ basis) ∈ ad.obsm_keys →
      pyDedup ((pySplitComma s).map pyStrip) ≠ [""] →
      (pyDedup ((pySplitComma s).map pyStrip)).all (fun k => decide (k ∈ ad.obs_keys)) = false →
      plot_cell_indices ad ikey basis (.str s) = .error .assertionError) ∧
    (ikey ∈ ad.obs_keys → ("X_" ++ basis) ∈ ad.obsm_keys →
      (∃ k ∈ cks, k ∉ ad.obs_keys) →
      ∃ k', plot_cell_indices ad ikey basis (.list cks) = .error (.keyError k')) ∧
    plot_velocity ext ad paths (some gs) nvg ek mode sm ls ck pk rv vss vdyn opt =
      plot_velocity ext ad paths (some (gs.filter (fun g => decide (g ∈ ad.var_names))))
        nvg ek mode sm ls ck pk rv vss vdyn opt := by
  intro ext ad keys mb Mb basis dk de s ikey cks paths gs nvg ek mode sm ls ck pk rv vss
    vdyn opt
  refine ⟨fun h1 h2 hmiss => ?_, fun hrk hde hne hall => ?_,
    fun hrk hde hbasis hmiss => ?_, fun hkey hbasis hne hall => ?_,
    fun hkey hbasis hmiss => ?_, ?_⟩
  · obtain ⟨m, hm⟩ := checkKeys_missing ad keys hmiss
    refine ⟨m, ?_⟩
    unfold interactive_histograms interactive_histograms_body
    rw [if_neg (by omega), if_neg (by omega), hm]
  · have hck : parseKeysArg (.str s) ad.obs_keys = .error .assertionError := by
      simp only [parseKeysArg]
      rw [if_pos hne, if_neg (by rw [hall]; simp)]
    unfold highlight_de
    rw [if_neg (by simpa using hrk), hde, hck]
  · by_cases hkey : ad.rank_groupby ∈ cks
    · obtain ⟨k', hk'⟩ := obsColsE_missing ad cks hmiss
      refine ⟨k', ?_⟩
      unfold highlight_de
      rw [if_neg (by simpa using hrk), hde]
      dsimp only [parseKeysArg]
      rw [if_neg (by simpa using hbasis)]
      rw [if_pos hkey, hk']
    · have hmiss' : ∃ k ∈ ad.rank_groupby :: cks, k ∉ ad.obs_keys := by
        rcases hmiss with ⟨k, hk, hm⟩
        exact ⟨k, List.mem_cons_of_mem _ hk, hm⟩
      obtain ⟨k', hk'⟩ := obsColsE_missing ad (ad.rank_groupby :: cks) hmiss'
      refine ⟨k', ?_⟩
      unfold highlight_de
      rw [if_neg (by simpa using hrk), hde]
      dsimp only [parseKeysArg]
      rw [if_neg (by simpa using hbasis)]
      rw [if_neg hkey, hk']
  · have hck : parseKeysArg (.str s) ad.obs_keys = .error .assertionError := by
      simp only [parseKeysArg]
      rw [if_pos hne, if_neg (by rw [hall]; simp)]
    unfold plot_cell_indices
    rw [if_neg (by simpa using hkey), if_neg (by simpa using hbasis), hck]
  · obtain ⟨k', hk'⟩ := obsColsE_missing ad cks hmiss
    refine ⟨k', ?_⟩
    unfold plot_cell_indices
    rw [if_neg (by simpa using hkey), if_neg (by simpa using hbasis)]
    dsimp only [parseKeysArg]
    rw [hk']
  · unfold plot_velocity plot_velocity_core
    rw [plot_velocity_genes_filter]

/-- Claim C1, witness for the amended theorem at concrete inputs. -/
theorem C1_missing_keys_witness :
    (∃ m, interactive_histograms probeExt adCex ["nokey"] 1 1000 = .error (.valueError m)) ∧
    highlight_de adCex "umap" (.list []) (.str "nokey") = .error .assertionError ∧
    (∃ k', highlight_de adCex "umap" (.list []) (.list ["nokey"]) = .error (.keyError k')) ∧
    plot_cell_indices adCex "louvain" "umap" (.str "nokey") = .error .assertionError ∧
    (∃ k', plot_cell_indices adCex "louvain" "umap" (.list ["nokey"]) = .error (.keyError k')) ∧
    plot_velocity probeExt adCex [["0"]] (some ["g1", "missing"]) 5 "X" "gp" false 0
        "louvain" "louvain" false "velocity" "velocity_dynamical" [] =
      plot_velocity probeExt adCex [["0"]]
        (some (["g1", "missing"].filter (fun g => decide (g ∈ adCex.var_names)))) 5 "X" "gp"
        false 0 "louvain" "louvain" false "velocity" "velocity_dynamical" [] := by
  obtain ⟨h1, h2, h3, h4, h5, h6⟩ := C1_missing_keys probeExt adCex ["nokey"] 1 1000 "umap"
    (.list []) [] "nokey" "louvain" ["nokey"] [["0"]] ["g1", "missing"] 5 "X" "gp" false 0
    "louvain" "louvain" false "velocity" "velocity_dynamical" []
  exact ⟨h1 (by decide) (by decide) ⟨"nokey", by decide, by decide, by decide, by decide⟩,
         h2 (by decide) (by decide) (by decide) (by decide),
         h3 (by decide) (by decide) (by decide) ⟨"nokey", by decide, by decide⟩,
         h4 (by decide) (by decide) (by decide) (by decide),
         h5 (by decide) (by decide) ⟨"nokey", by decide, by decide⟩, h6⟩

/-- Claim C2: `interactive_histograms` raises `ValueError` when `min_bins < 1`
and when `max_bins < min_bins`, before any histogram is computed (the result
is the error, not the histogram list), and with `min_bins ≥ 1` and
`max_bins ≥ min_bins` the check passes: the call equals the post-check body,
independently of the bin bounds. -/
theorem C2_bin_bounds : ∀ (ext : Externals) (ad : AnnData) (keys : List String) (mb Mb : Int),
    (mb < 1 → interactive_histograms ext ad keys mb Mb =
      .error (.valueError "Expected min_bins >= 1")) ∧
    (1 ≤ mb → Mb < mb → interactive_histograms ext ad keys mb Mb =
      .error (.valueError "Expected min_bins <= max_bins")) ∧
    (1 ≤ mb → mb ≤ Mb →
      interactive_histograms ext ad keys mb Mb = interactive_histograms_body ext ad keys) := by
  intro ext ad keys mb Mb
  refine ⟨fun h => ?_, fun h1 h2 => ?_, fun h1 h2 => ?_⟩
  · unfold interactive_histograms
    rw [if_pos h]
  · unfold interactive_histograms
    rw [if_neg (by omega), if_pos h2]
  · unfold interactive_histograms
    rw [if_neg (by omega), if_neg (by omega)]

/-- Claim C2, witness at concrete bin bounds. -/
theorem C2_bin_bounds_witness :
    interactive_histograms probeExt adCex ["dpt_pseudotime"] 0 10 =
      .error (.valueError "Expected min_bins >= 1") ∧
    interactive_histograms probeExt adCex ["dpt_pseudotime"] 2 1 =
      .error (.valueError "Expected min_bins <= max_bins") ∧
    interactive_histograms probeExt adCex ["dpt_pseudotime"] 1 1000 =
      interactive_histograms_body probeExt adCex ["dpt_pseudotime"] := by
  obtain ⟨h1, h2, h3⟩ := C2_bin_bounds probeExt adCex ["dpt_pseudotime"] 0 10
  obtain ⟨h1', h2', h3'⟩ := C2_bin_bounds probeExt adCex ["dpt_pseudotime"] 2 1
  obtain ⟨h1'', h2'', h3''⟩ := C2_bin_bounds probeExt adCex ["dpt_pseudotime"] 1 1000
  exact ⟨h1 (by decide), h2' (by decide) (by decide), h3'' (by decide) (by decide)⟩

/-- Claim C3, counterexample: two successive `smooth_expression` calls with
identical arguments — the second receives the `kernel_params` dictionary
exactly as the first call left it, the Python situation of passing the same
dictionary object twice — return different results: the first call pops the
`type: mat` entry from the caller's dictionary, so the second call falls back
to an RBF kernel and the regressor returns a different mean. -/
theorem C3_idempotence_counterexample :
    (smooth_expression probeExt [] [] 0 "gp" [("k", [("type", .str "mat")])] []
        (some "k") false []).2.kernel_params = [("k", [])] ∧
    (smooth_expression probeExt [] [] 0 "gp"
        (smooth_expression probeExt [] [] 0 "gp" [("k", [("type", .str "mat")])] []
          (some "k") false []).2.kernel_params
        (smooth_expression probeExt [] [] 0 "gp" [("k", [("type", .str "mat")])] []
          (some "k") false []).2.kernel_default_params
        (some "k") false []).1 ≠
      (smooth_expression probeExt [] [] 0 "gp" [("k", [("type", .str "mat")])] []
        (some "k") false []).1 := by
  decide

/-- Claim C3, amended: two successive calls with identical arguments produce
identical results provided no parameter dictionary carries a `type` entry (in
particular always for mode `krr`): the call then leaves `kernel_params` and
`kernel_default_params` unchanged, so repeating it with the dictionaries as
the first call left them is the same application.  When a `type` entry is
present, the first call pops it from the caller's dictionary and the second
call sees mutated state (see the counterexample). -/
theorem C3_idempotent_of_no_type : ∀ (ext : Externals) (x y : List ℚ) (n : Nat)
    (mode : String) (kp : KernelParams) (kdp : Params) (kexpr : Option String)
    (dflt : Bool) (opt : Params),
    kstateNoType ⟨kp, kdp⟩ = true →
    (smooth_expression ext x y n mode kp kdp kexpr dflt opt).2 = ⟨kp, kdp⟩ ∧
    smooth_expression ext x y n mode
        (smooth_expression ext x y n mode kp kdp kexpr dflt opt).2.kernel_params
        (smooth_expression ext x y n mode kp kdp kexpr dflt opt).2.kernel_default_params
        kexpr dflt opt =
      smooth_expression ext x y n mode kp kdp kexpr dflt opt := by
  intro ext x y n mode kp kdp kexpr dflt opt h
  have hst : (smooth_expression ext x y n mode kp kdp kexpr dflt opt).2 = ⟨kp, kdp⟩ := by
    unfold smooth_expression
    dsimp only
    split
    · split <;> rfl
    · split
      · split
        · rfl
        · split
          · rfl
          · rename_i node hparse
            split
            · rename_i e st' heq
              have h2 := evalKernel_snd_of_noType dflt node ⟨kp, kdp⟩ h
              rw [heq] at h2
              exact h2
            · rename_i k st' heq
              have h2 := evalKernel_snd_of_noType dflt node ⟨kp, kdp⟩ h
              rw [heq] at h2
              exact h2
      · rfl
  refine ⟨hst, ?_⟩
  rw [hst]

/-- Claim C3, witness: with a `type`-free `kernel_params`, the state is
preserved and the repeated call coincides with the first. -/
theorem C3_idempotent_witness :
    kstateNoType ⟨[("k", [("length_scale", .num (1 / 5))])], []⟩ = true ∧
    ((smooth_expression probeExt [] [] 0 "gp" [("k", [("length_scale", .num (1 / 5))])] []
        (some "k") false []).2 = ⟨[("k", [("length_scale", .num (1 / 5))])], []⟩ ∧
      smooth_expression probeExt [] [] 0 "gp"
          (smooth_expression probeExt [] [] 0 "gp" [("k", [("length_scale", .num (1 / 5))])]
            [] (some "k") false []).2.kernel_params
          (smooth_expression probeExt [] [] 0 "gp" [("k", [("length_scale", .num (1 / 5))])]
            [] (some "k") false []).2.kernel_default_params
          (some "k") false [] =
        smooth_expression probeExt [] [] 0 "gp" [("k", [("length_scale", .num (1 / 5))])] []
          (some "k") false []) :=
  ⟨by decide,
   C3_idempotent_of_no_type probeExt [] [] 0 "gp" [("k", [("length_scale", .num (1 / 5))])]
     [] (some "k") false [] (by decide)⟩

/-- Claim C4: no embedded function mutates the caller-supplied annotated-data
object.  `plot_velocity` and `multi_link` — the two functions whose bodies
derive modified data objects — return the caller's `adata` unchanged: every
write in the source goes to a copy (`adata[path_ix].copy()` in
`plot_velocity`; `ad_tmp = adata.copy()` with `ad_tmp.uns['iroot'] = i` in
`multi_link`). -/
theorem C4_no_adata_mutation : ∀ (ext : Externals) (adata : AnnData)
    (paths : List (List String)) (genes : Option (List String)) (nvg : Nat)
    (ek mode : String) (sm : Bool) (ls : ℚ) (ck pk : String) (rv : Bool)
    (vss vdyn : String) (opt : Params) (bases : List String) (comps : ComponentsArg)
    (markers : Option (List String)) (dist : Distance) (hl : Option String),
    (plot_velocity ext adata paths genes nvg ek mode sm ls ck pk rv vss vdyn opt).1 = adata ∧
    (multi_link ext adata bases comps markers dist hl).1 = adata := by
  intros
  exact ⟨rfl, rfl⟩

/-- Claim C5, counterexample: on a data object with a pseudotime column but no
`velocity` / `velocity_dynamical` entry in the layers, `plot_velocity` does
not raise — the layer checks of lines 661-666 are disabled (`pass` replaces
the commented-out `raise`), so the call completes and returns `None`. -/
theorem C5_missing_prereqs_counterexample :
    "velocity" ∉ adCex.layers_keys ∧ "velocity_dynamical" ∉ adCex.layers_keys ∧
    (plot_velocity probeExt adCex [["0"]] (some ["g1"]) 5 "X" "gp" false 0
      "louvain" "louvain" false "velocity" "velocity_dynamical" []).2 = .ok none := by
  decide

/-- Claim C5, amended: `plot_velocity` raises the descriptive
`ValueError "Compute dpt first."` when `dpt_pseudotime` is absent from the
observation table (once the path assertions pass), and `highlight_de` raises
`ValueError "Run differential expression first."` when `rank_genes_groups` is
absent from the metadata mapping; but the steady-state / dynamical
velocity-layer checks in `plot_velocity` are disabled in the source and never
raise. -/
theorem C5_missing_prereqs : ∀ (ext : Externals) (ad : AnnData)
    (paths : List (List String)) (genes : Option (List String)) (nvg : Nat)
    (ek mode : String) (sm : Bool) (ls : ℚ) (ck pk : String) (rv : Bool)
    (vss vdyn : String) (opt : Params) (basis : String) (dk ckk : StrOrList),
    (pathsCheck ad pk paths = .ok () → "dpt_pseudotime" ∉ ad.obs_keys →
      (plot_velocity ext ad paths genes nvg ek mode sm ls ck pk rv vss vdyn opt).2 =
        .error (.valueError "Compute dpt first.")) ∧
    ("rank_genes_groups" ∉ ad.uns_keys →
      highlight_de ad basis dk ckk = .error (.valueError "Run differential expression first.")) := by
  intro ext ad paths genes nvg ek mode sm ls ck pk rv vss vdyn opt basis dk ckk
  constructor
  · intro hpc hdpt
    unfold plot_velocity plot_velocity_core
    rw [hpc]
    dsimp only
    rw [if_pos hdpt]
  · intro hrk
    unfold highlight_de
    rw [if_pos hrk]

/-- Claim C5, witness for the amended theorem at concrete inputs. -/
theorem C5_missing_prereqs_witness :
    (plot_velocity probeExt adEmpty [] none 5 "X" "gp" false 0 "louvain" "louvain"
      false "velocity" "velocity_dynamical" []).2 = .error (.valueError "Compute dpt first.") ∧
    highlight_de adEmpty "umap" (.list []) (.list []) =
      .error (.valueError "Run differential expression first.") := by
  obtain ⟨h1, h2⟩ := C5_missing_prereqs probeExt adEmpty [] none 5 "X" "gp" false 0
    "louvain" "louvain" false "velocity" "velocity_dynamical" [] "umap" (.list []) (.list [])
  exact ⟨h1 (by decide) (by decide), h2 (by decide)⟩

/-- Claim C6: for every `mode` other than `krr` and `gp`, `smooth_expression`
raises `ValueError` and returns no result; for mode `krr` it returns the
triple `(x_test, predictions, [None] * n_points)` whose covariance entry is a
length-`n_points` list of `None`; for mode `gp`, whenever the call returns a
result, the result is a triple whose first component is the `n_points` test
points. -/
theorem C6_mode_dispatch : ∀ (ext : Externals) (x y : List ℚ) (n : Nat) (mode : String)
    (kp : KernelParams) (kdp : Params) (kexpr : Option String) (dflt : Bool) (opt : Params),
    (mode ≠ "krr" → mode ≠ "gp" →
      (smooth_expression ext x y n mode kp kdp kexpr dflt opt).1 =
        .error (.valueError "Uknown type")) ∧
    (∀ g, krrGamma kdp opt = .ok g →
      (smooth_expression ext x y n "krr" kp kdp kexpr dflt opt).1 =
        .ok ⟨linspace01 n,
             ext.krrPredict g ((alookup (aerase opt "gamma") "kernel").getD (.str "rbf"))
               (aerase (aerase opt "gamma") "kernel") x y (linspace01 n),
             List.replicate n CovEntry.pyNone⟩) ∧
    (∀ r, (smooth_expression ext x y n "gp" kp kdp kexpr dflt opt).1 = .ok r →
      r.x_test = linspace01 n) := by
  intro ext x y n mode kp kdp kexpr dflt opt
  refine ⟨fun h1 h2 => ?_, fun g hg => ?_, fun r hr => ?_⟩
  · unfold smooth_expression
    dsimp only
    rw [if_neg h1, if_neg h2]
  · unfold smooth_expression
    dsimp only
    rw [if_pos rfl, hg]
  · unfold smooth_expression at hr
    dsimp only at hr
    rw [if_neg (by decide), if_pos rfl] at hr
    split at hr
    · cases hr
    · split at hr
      · cases hr
      · split at hr
        · cases hr
        · injection hr with h
          rw [← h]

/-- Claim C6, witness at concrete modes. -/
theorem C6_mode_dispatch_witness :
    (smooth_expression probeExt [] [] 0 "bogus" [] [] none false []).1 =
      .error (.valueError "Uknown type") ∧
    (smooth_expression probeExt [] [] 0 "krr" [] [] none false [("gamma", .num 3)]).1 =
      .ok ⟨linspace01 0,
           probeExt.krrPredict (.num 3)
             ((alookup (aerase [("gamma", .num 3)] "gamma") "kernel").getD (.str "rbf"))
             (aerase (aerase [("gamma", .num 3)] "gamma") "kernel") [] [] (linspace01 0),
           List.replicate 0 CovEntry.pyNone⟩ ∧
    (⟨linspace01 0, [0], []⟩ : SmoothResult).x_test = linspace01 0 := by
  refine ⟨?_, ?_, ?_⟩
  · exact (C6_mode_dispatch probeExt [] [] 0 "bogus" [] [] none false []).1
      (by decide) (by decide)
  · exact (C6_mode_dispatch probeExt [] [] 0 "krr" [] [] none false
      [("gamma", .num 3)]).2.1 (.num 3) (by decide)
  · exact (C6_mode_dispatch probeExt [] [] 0 "gp" [("k", [])] [] (some "k") false []).2.2
      ⟨linspace01 0, [0], []⟩ (by decide)

/-- Claim C7, counterexample: with two requested genes `g1`, `g2` and
`return_values=True`, `plot_velocity` returns only the arrays of the last
gene (`data` is rebound fresh for every gene, so the returned dictionary
holds `g2`'s expression `[3, 4]`), not the arrays of every requested gene:
`g1`'s computed expression array `[1, 2]` is absent from the return value. -/
theorem C7_return_values_counterexample :
    (plot_velocity probeExt adCex [["0"]] (some ["g1", "g2"]) 5 "X" "gp" false 0
        "louvain" "louvain" true "velocity" "velocity_dynamical" []).2 =
      .ok (some ⟨[[3, 4]], [[0, 1]], [["0", "0"]], [], [], []⟩) ∧
    plot_velocity_gene_data probeExt adCex [["0"]] "g1" "X" "louvain" "louvain" "gp"
        false 0 [] = .ok ⟨[[1, 2]], [[0, 1]], [["0", "0"]], [], [], []⟩ ∧
    [1, 2] ∉ (⟨[[3, 4]], [[0, 1]], [["0", "0"]], [], [], []⟩ : VeloData).expr := by
  decide

/-- Claim C7, amended: when `return_values` is `False`, a completed
`plot_velocity` call returns `None`; when `return_values` is `True`, the
returned value is the `data` dictionary of the last iterated gene — the
per-gene arrays of the final entry of the effective gene list, one entry per
path — not the arrays of every requested gene. -/
theorem C7_return_values : ∀ (ext : Externals) (ad : AnnData)
    (paths : List (List String)) (genes : Option (List String)) (nvg : Nat)
    (ek mode : String) (sm : Bool) (ls : ℚ) (ck pk : String) (vss vdyn : String)
    (opt : Params),
    (∀ r, (plot_velocity ext ad paths genes nvg ek mode sm ls ck pk false vss vdyn opt).2 =
        .ok r → r = none) ∧
    (∀ d, (plot_velocity ext ad paths genes nvg ek mode sm ls ck pk true vss vdyn opt).2 =
        .ok (some d) →
      ∃ g, (plot_velocity_genes ad genes nvg).getLast? = some g ∧
        plot_velocity_gene_data ext ad paths g ek pk ck mode sm ls opt = .ok d) := by
  intro ext ad paths genes nvg ek mode sm ls ck pk vss vdyn opt
  constructor
  · intro r hr
    unfold plot_velocity at hr
    dsimp only at hr
    split at hr
    · cases hr
    · injection hr with h
      exact h.symm
  · intro d hd
    unfold plot_velocity at hd
    dsimp only at hd
    split at hd
    · cases hd
    · rename_i datas hcore
      rw [if_pos rfl] at hd
      split at hd
      · rename_i d' hlast
        injection hd with h
        injection h with h2
        subst h2
        unfold plot_velocity_core at hcore
        split at hcore
        · cases hcore
        · split at hcore
          · cases hcore
          · dsimp only at hcore
            split at hcore
            · cases hcore
            · exact mapE_getLast hcore hlast
      · cases hd

/-- Claim C7, witness for the amended theorem at concrete inputs. -/
theorem C7_return_values_witness :
    (none : Option VeloData) = none ∧
    ∃ g, (plot_velocity_genes adCex (some ["g1", "g2"]) 5).getLast? = some g ∧
      plot_velocity_gene_data probeExt adCex [["0"]] g "X" "louvain" "louvain" "gp"
        false 0 [] = .ok ⟨[[3, 4]], [[0, 1]], [["0", "0"]], [], [], []⟩ := by
  obtain ⟨h1, h2⟩ := C7_return_values probeExt adCex [["0"]] (some ["g1", "g2"]) 5 "X"
    "gp" false 0 "louvain" "louvain" "velocity" "velocity_dynamical" []
  exact ⟨h1 none (by decide), h2 ⟨[[3, 4]], [[0, 1]], [["0", "0"]], [], [], []⟩ (by decide)⟩

/-- Claim C8: `pred_exp` reads the unbound name `X_test` (its parameter is
`x_test`, and `X_test` is bound neither among its locals nor at module level),
so every call fails with a `NameError` and never returns a predicted array. -/
theorem C8_pred_exp_unbound : ∀ (x_test y_test : List ℚ),
    pred_exp x_test y_test = .error (.nameError "X_test") := by
  intro x y
  rfl

/-- Claim C9: in `hist_thresh` and `multi_link`, with a (wrapped, nonempty)
component list whose length differs from the bases list, normalization
succeeds exactly when the number of bases is a positive multiple of the number
of component pairs; on success the pairs are replicated cyclically (entry `i`
is component `i mod len(components)`) so each basis gets one pair, and on
failure the `AssertionError` propagates out of both functions. -/
theorem C9_components_cycling : ∀ (ext : Externals) (ad : AnnData) (key : String)
    (bases : List String) (comps : List (List Int)) (markers : Option (List String))
    (dist : Distance) (hl : Option String),
    comps ≠ [] → comps.length ≠ bases.length →
    (((∃ cs, normalize_components bases comps = .ok cs) ↔
        ∃ k, 1 ≤ k ∧ bases.length = k * comps.length) ∧
      (∀ cs, normalize_components bases comps = .ok cs →
        cs.length = bases.length ∧
        ∀ i, i < bases.length → cs[i]? = comps[i % comps.length]?) ∧
      ((∃ cs, normalize_components bases comps = .ok cs) ∨
        normalize_components bases comps = .error .assertionError) ∧
      (∀ e, normalize_components bases comps = .error e →
        hist_thresh ext ad key bases (.nested comps) = .error e ∧
        (multi_link ext ad bases (.nested comps) markers dist hl).2 = .error e)) := by
  intro ext ad key bases comps markers dist hl hne0 hnelen
  have hlen : 0 < comps.length := List.length_pos.mpr hne0
  by_cases hcond : bases.length % comps.length = 0 ∧ comps.length ≤ bases.length
  · have hok : normalize_components bases comps =
        .ok (listRepeat comps (bases.length / comps.length)) := by
      unfold normalize_components
      rw [if_pos hnelen, if_pos hcond]
    have hdvd : comps.length ∣ bases.length := Nat.dvd_of_mod_eq_zero hcond.1
    have hmul : bases.length / comps.length * comps.length = bases.length :=
      Nat.div_mul_cancel hdvd
    refine ⟨?_, ?_, ?_, ?_⟩
    · constructor
      · intro _
        exact ⟨bases.length / comps.length, (Nat.one_le_div_iff hlen).mpr hcond.2, hmul.symm⟩
      · intro _
        exact ⟨_, hok⟩
    · intro cs hcs
      rw [hok] at hcs
      injection hcs with hcs
      subst hcs
      constructor
      · rw [listRepeat_length]
        exact hmul
      · intro i hi
        apply listRepeat_getElem? hne0
        rw [hmul]
        exact hi
    · exact Or.inl ⟨_, hok⟩
    · intro e he
      rw [hok] at he
      cases he
  · have herr : normalize_components bases comps = .error .assertionError := by
      unfold normalize_components
      rw [if_pos hnelen, if_neg hcond]
    refine ⟨?_, ?_, ?_, ?_⟩
    · constructor
      · rintro ⟨cs, hcs⟩
        rw [herr] at hcs
        cases hcs
      · rintro ⟨k, hk1, hk2⟩
        exfalso
        apply hcond
        constructor
        · rw [hk2]
          exact Nat.mul_mod_left k comps.length
        · rw [hk2]
          exact Nat.le_mul_of_pos_left _ hk1
    · intro cs hcs
      rw [herr] at hcs
      cases hcs
    · exact Or.inr herr
    · intro e he
      rw [herr] at he
      injection he with h3
      subst h3
      constructor
      · cases comps with
        | nil => exact absurd rfl hne0
        | cons c cs' =>
          unfold hist_thresh
          simp only [wrapComponents]
          rw [herr]
      · cases comps with
        | nil => exact absurd rfl hne0
        | cons c cs' =>
          unfold multi_link
          simp only [wrapComponents]
          rw [herr]

/-- Claim C9, witness: four bases, two component pairs. -/
theorem C9_components_cycling_witness :
    (((∃ cs, normalize_components ["a", "b", "c", "d"] [[1, 2], [3, 4]] = .ok cs) ↔
        ∃ k, 1 ≤ k ∧ (["a", "b", "c", "d"] : List String).length =
          k * ([[1, 2], [3, 4]] : List (List Int)).length) ∧
      (∀ cs, normalize_components ["a", "b", "c", "d"] [[1, 2], [3, 4]] = .ok cs →
        cs.length = (["a", "b", "c", "d"] : List String).length ∧
        ∀ i, i < (["a", "b", "c", "d"] : List String).length →
          cs[i]? = ([[1, 2], [3, 4]] : List (List Int))[i % ([[1, 2], [3, 4]] : List (List Int)).length]?) ∧
      ((∃ cs, normalize_components ["a", "b", "c", "d"] [[1, 2], [3, 4]] = .ok cs) ∨
        normalize_components ["a", "b", "c", "d"] [[1, 2], [3, 4]] = .error .assertionError) ∧
      (∀ e, normalize_components ["a", "b", "c", "d"] [[1, 2], [3, 4]] = .error e →
        hist_thresh probeExt adCex "dpt_pseudotime" ["a", "b", "c", "d"]
          (.nested [[1, 2], [3, 4]]) = .error e ∧
        (multi_link probeExt adCex ["a", "b", "c", "d"] (.nested [[1, 2], [3, 4]]) none
          (.pnorm 2) none).2 = .error e)) :=
  C9_components_cycling probeExt adCex "dpt_pseudotime" ["a", "b", "c", "d"]
    [[1, 2], [3, 4]] none (.pnorm 2) none (by decide) (by decide)

/-- Claim C10: in mode `gp` with `kernel_expr=None`, `smooth_expression`
requires `kernel_params` to contain exactly one entry — any other size fails
the assertion before the dictionaries are touched — and with a single entry
the call behaves exactly as if its sole key had been passed as the kernel
expression. -/
theorem C10_gp_default_kernel_expr : ∀ (ext : Externals) (x y : List ℚ) (n : Nat)
    (kp : KernelParams) (kdp : Params) (dflt : Bool) (opt : Params) (k : String) (p : Params),
    (kp.length ≠ 1 →
      smooth_expression ext x y n "gp" kp kdp none dflt opt =
        (.error .assertionError, ⟨kp, kdp⟩)) ∧
    smooth_expression ext x y n "gp" [(k, p)] kdp none dflt opt =
      smooth_expression ext x y n "gp" [(k, p)] kdp (some k) dflt opt := by
  intro ext x y n kp kdp dflt opt k p
  constructor
  · intro hlen
    have hres : resolveKernelExpr none kp = .error .assertionError := by
      unfold resolveKernelExpr
      match kp with
      | [] => rfl
      | [(k', p')] => exact absurd rfl hlen
      | (k₁, p₁) :: (k₂, p₂) :: rest => rfl
    unfold smooth_expression
    dsimp only
    rw [if_neg (by decide), if_pos rfl, hres]
  · rfl

/-- Claim C10, witness at concrete kernel dictionaries. -/
theorem C10_gp_default_kernel_expr_witness :
    smooth_expression probeExt [] [] 0 "gp" [("a", []), ("b", [])] [] none false [] =
      (.error .assertionError, ⟨[("a", []), ("b", [])], []⟩) ∧
    smooth_expression probeExt [] [] 0 "gp" [("k", [])] [] none false [] =
      smooth_expression probeExt [] [] 0 "gp" [("k", [])] [] (some "k") false [] := by
  obtain ⟨h1, _⟩ := C10_gp_default_kernel_expr probeExt [] [] 0 [("a", []), ("b", [])] []
    false [] "k" []
  obtain ⟨_, h2⟩ := C10_gp_default_kernel_expr probeExt [] [] 0 [("k", [])] [] false []
    "k" []
  exact ⟨h1 (by decide), h2⟩

end IPlot


